import Mathlib

/-!
Shallow embedding of the deployment orchestration and live-event
broadcasting subsystem of sathwikshetty33/Django_VPC.

The Go source embedded here:
- `src/api/main.go` : DeploymentManager (clients registry + deployments
  status store), handleDeployment, handleLogStream, handleDeploymentStatus,
  validateRequest, and the inline retire block of the deployment goroutine.
- `src/unnamed/part_005` : DeploymentService.Deploy pipeline and
  extractRepoName (also in src/Services).

Go channels are modelled as bounded queues with a `closed` flag living in a
heap keyed by a channel identity (`Nat`); operations that panic in Go
(close of a closed channel, send on a closed channel) return `none`.
Timestamps are abstract `Nat`s.  External effects (os.MkdirAll, terraform,
ansible, ssh) are an oracle `DeployWorld` recording each call's outcome;
the control flow around them is translated from the source.
-/

namespace VPC

/-- Association-list lookup: the value at the first occurrence of key `k`
(models a Go map read). -/
def lookupKey [DecidableEq κ] : List (κ × α) → κ → Option α
  | [], _ => none
  | (a, b) :: t, k => if a = k then some b else lookupKey t k

/-- Association-list write: replace the first binding of `k`, else append
(models a Go map insert/overwrite). -/
def setKey [DecidableEq κ] : List (κ × α) → κ → α → List (κ × α)
  | [], k, v => [(k, v)]
  | (a, b) :: t, k, v => if a = k then (k, v) :: t else (a, b) :: setKey t k v

/-- Association-list in-place update of an existing key's value
(models mutation through a looked-up Go map entry / pointer). -/
def updKey [DecidableEq κ] : List (κ × α) → κ → α → List (κ × α)
  | [], _, _ => []
  | (a, b) :: t, k, v => if a = k then (a, v) :: updKey t k v else (a, b) :: updKey t k v

/-- Association-list delete (models Go `delete(m, k)`). -/
def eraseKey [DecidableEq κ] : List (κ × α) → κ → List (κ × α)
  | [], _ => []
  | (a, b) :: t, k => if a = k then eraseKey t k else (a, b) :: eraseKey t k

/-- services.LogMessage (src/unnamed/part_005 lines 17-22): level, message,
timestamp, step. Timestamps are abstract naturals. -/
structure LogMessage where
  level : String
  message : String
  timestamp : Nat
  step : String
deriving DecidableEq

/-- A Go buffered channel of LogMessage: pending buffer, capacity, and
whether it has been closed. -/
structure Chan where
  buf : List LogMessage
  cap : Nat
  closed : Bool
deriving DecidableEq

/-- DeploymentStatus (src/api/main.go lines 30-36). `error` is the error's
message string, `none` for Go `nil`. -/
structure DeploymentStatus where
  id : String
  status : String
  startTime : Nat
  endTime : Option Nat
  error : Option String
deriving DecidableEq

/-- DeploymentManager state (src/api/main.go lines 23-28) plus the heap of
channel objects (`chans`) that Go keeps implicit: `clients` maps a
deployment id to the set of channel identities registered for it;
`deployments` is the status store. -/
structure DM where
  chans : List (Nat × Chan)
  clients : List (String × List Nat)
  deployments : List (String × DeploymentStatus)
deriving DecidableEq

/-- Models `clientChan := make(chan services.LogMessage, 100)`
(src/api/main.go line 256): allocate a fresh open channel of capacity 100
at identity `cid`. -/
def newClientChan (cid : Nat) (st : DM) : DM :=
  { st with chans := setKey st.chans cid ⟨[], 100, false⟩ }

/-- Go `close(ch)`: panics (`none`) if the channel is already closed. A
missing heap entry has no Go counterpart (the caller always holds a live
channel object) and is also mapped to `none`. -/
def closeChan (cid : Nat) (st : DM) : Option DM :=
  match lookupKey st.chans cid with
  | none => none
  | some c =>
      if c.closed then none
      else some { st with chans := updKey st.chans cid ({ c with closed := true }) }

/-- Go `select { case ch <- msg: default: }` (src/api/main.go lines 84-88):
non-blocking send; enqueue if there is room, silently drop if the buffer is
full, panic (`none`) if the channel is closed. -/
def trySend (cid : Nat) (msg : LogMessage) (st : DM) : Option DM :=
  match lookupKey st.chans cid with
  | none => none
  | some c =>
      if c.closed then none
      else if c.buf.length < c.cap then
        some { st with chans := updKey st.chans cid ({ c with buf := c.buf ++ [msg] }) }
      else
        some st

/-- The subscriber set currently registered for a deployment id
(`dm.clients[deploymentID]`, nil and empty both give `[]`). -/
def clientsOf (st : DM) (id : String) : List Nat :=
  (lookupKey st.clients id).getD []

/-- DeploymentManager.AddClient (src/api/main.go lines 45-55): create the
inner map if absent, then register the channel. -/
def AddClient (id : String) (cid : Nat) (st : DM) : DM :=
  match lookupKey st.clients id with
  | none => { st with clients := setKey st.clients id [cid] }
  | some l => { st with clients := updKey st.clients id (if cid ∈ l then l else l ++ [cid]) }

/-- DeploymentManager.RemoveClient (src/api/main.go lines 57-68): delete
the channel from the registry entry if that entry exists, then
unconditionally `close(client)` — the close is outside the existence
guard, so it panics if the channel was already closed. -/
def RemoveClient (id : String) (cid : Nat) (st : DM) : Option DM :=
  let st1 :=
    match lookupKey st.clients id with
    | none => st
    | some l => { st with clients := updKey st.clients id (l.filter (fun x => x != cid)) }
  closeChan cid st1

/-- DeploymentManager.BroadcastLog (src/api/main.go lines 70-96): if the
deployment has registered subscribers, attempt a non-blocking send to each
of them; otherwise the event is discarded. -/
def BroadcastLog (id : String) (msg : LogMessage) (st : DM) : Option DM :=
  match lookupKey st.clients id with
  | none => some st
  | some cls =>
      if cls.length > 0 then cls.foldlM (fun s c => trySend c msg s) st
      else some st

/-- DeploymentManager.SetDeploymentStatus (src/api/main.go lines 98-110):
if the record exists, overwrite status and error, and set end_time to now
when the written status is "completed" or "failed". -/
def SetDeploymentStatus (id status : String) (err : Option String) (now : Nat) (st : DM) : DM :=
  match lookupKey st.deployments id with
  | none => st
  | some d =>
      let d2 : DeploymentStatus :=
        { d with status := status, error := err,
                 endTime := if status = "completed" ∨ status = "failed"
                            then some now else d.endTime }
      { st with deployments := updKey st.deployments id d2 }

/-- DeploymentManager.GetDeploymentStatus (src/api/main.go lines 112-117). -/
def GetDeploymentStatus (id : String) (st : DM) : Option DeploymentStatus :=
  lookupKey st.deployments id

/-- DeploymentManager.CreateDeployment (src/api/main.go lines 119-128):
unconditionally store a fresh record with status "running". -/
def CreateDeployment (id : String) (now : Nat) (st : DM) : DM :=
  { st with deployments := setKey st.deployments id ⟨id, "running", now, none, none⟩ }

/-- The inline retire block of the deployment goroutine
(src/api/main.go lines 225-228): after the grace sleep, delete the whole
registry entry for the deployment. Nothing else is touched. -/
def Retire (id : String) (st : DM) : DM :=
  { st with clients := eraseKey st.clients id }

/-- Constructor for the broadcast messages (level, message, step, now). -/
def mkMsg (level message step : String) (now : Nat) : LogMessage :=
  ⟨level, message, now, step⟩

/-- The terminal sentinel event (src/api/main.go lines 216-221 and 275-280). -/
def sentinelMsg (now : Nat) : LogMessage :=
  ⟨"system", "DEPLOYMENT_COMPLETE", now, "system"⟩

/-- The synthetic connection event written right after AddClient
(src/api/main.go lines 261-266). -/
def connectedMsg (id status : String) (now : Nat) : LogMessage :=
  ⟨"system",
   "Connected to log stream for deployment " ++ id ++ " (status: " ++ status ++ ")",
   now, "connection"⟩

/-- services.DeploymentRequest (src/unnamed/part_005 lines 26-34). -/
structure DeploymentRequest where
  repoURL : String
  githubToken : String
  username : String
  additionalCommands : List String
  envVariables : List (String × String)
  asgi : Bool
  autoDeploy : Bool
deriving DecidableEq

/-- validateRequest (src/api/main.go lines 369-381): first missing required
field wins; `none` means valid. -/
def validateRequest (req : DeploymentRequest) : Option String :=
  if req.username = "" then some "username is required"
  else if req.repoURL = "" then some "repo_url is required"
  else if req.githubToken = "" then some "github_token is required"
  else none

/-- Result of the synchronous part of POST /deploy: HTTP status, the store
state afterwards, and whether the deployment goroutine was spawned. -/
structure DeployAccept where
  httpStatus : Nat
  stAfter : DM
  pipelineStarted : Bool
deriving DecidableEq

/-- Synchronous part of handleDeployment (src/api/main.go lines 159-184,
231-237): bind the body (`none` = malformed JSON), validate, then create
the record and spawn the pipeline. `deploymentID` stands for the
generated username-timestamp id. -/
def handleDeployment (body : Option DeploymentRequest) (deploymentID : String)
    (now : Nat) (st : DM) : DeployAccept :=
  match body with
  | none => ⟨400, st, false⟩
  | some req =>
      match validateRequest req with
      | some _ => ⟨400, st, false⟩
      | none => ⟨200, CreateDeployment deploymentID now st, true⟩

/-- Result of the attach phase of GET /deploy/:id/logs: whether it answered
404, the events written to the response before the select loop (or before
returning, on the already-terminal path), whether the handler enters the
select loop, and the manager state when that point is reached. -/
structure StreamAttach where
  notFound : Bool
  events : List LogMessage
  entersLoop : Bool
  stAfter : DM
deriving DecidableEq

/-- The synchronous attach phase of handleLogStream (src/api/main.go lines
239-285): unknown id → 404; otherwise make a 100-slot channel, AddClient,
write the synthetic connection event, and if the status is already
terminal write the completion sentinel and return (running the deferred
RemoveClient); else enter the select loop. `none` = panic (unreachable:
the fresh channel is open when the deferred RemoveClient closes it). -/
def handleLogStream (id : String) (cid : Nat) (now : Nat) (st : DM) :
    Option StreamAttach :=
  match GetDeploymentStatus id st with
  | none => some ⟨true, [], false, st⟩
  | some d =>
      let st1 := AddClient id cid (newClientChan cid st)
      let ev1 := [connectedMsg id d.status now]
      if d.status = "completed" ∨ d.status = "failed" then
        (RemoveClient id cid st1).map
          (fun st2 => ⟨false, ev1 ++ [sentinelMsg now], false, st2⟩)
      else
        some ⟨false, ev1, true, st1⟩

/-- Response of GET /deploy/:id/status: HTTP status plus the optional
snapshot fields (src/api/main.go lines 342-367). `duration` is the Nat
difference end - start. -/
structure StatusResponse where
  httpStatus : Nat
  deploymentId : Option String
  status : Option String
  startTime : Option Nat
  endTime : Option Nat
  duration : Option Nat
  error : Option String
deriving DecidableEq

/-- handleDeploymentStatus (src/api/main.go lines 342-367). -/
def handleDeploymentStatus (id : String) (st : DM) : StatusResponse :=
  match GetDeploymentStatus id st with
  | none => ⟨404, none, none, none, none, none, none⟩
  | some d =>
      ⟨200, some d.id, some d.status, some d.startTime, d.endTime,
       d.endTime.map (fun e => e - d.startTime), d.error⟩

/-- filepath.Join for clean relative components. -/
def joinPath (a b : String) : String := a ++ "/" ++ b

/-- strings.Split(path, "/") over the path's characters: split at every
slash (Go Split("", "/") likewise yields one empty part). -/
def splitOnSlash : List Char → List (List Char)
  | [] => [[]]
  | c :: rest =>
      match splitOnSlash rest with
      | [] => if c = '/' then [[], []] else [[c]]
      | h :: t => if c = '/' then [] :: h :: t else (c :: h) :: t

/-- extractRepoName (src/Services/deplyment-service.go lines 763-780),
taking the result of the stdlib call `url.Parse(repoURL)` — error or the
parsed URL's path — as input: strip a leading "/" (strings.TrimPrefix) and
a trailing ".git" (strings.TrimSuffix), split on "/", require at least two
components, return the last. Characterwise so that it evaluates by
kernel reduction. -/
def extractRepoName (parse : Except String String) : Except String String :=
  match parse with
  | .error e => .error e
  | .ok p =>
      let chars :=
        match p.data with
        | '/' :: rest => rest
        | l => l
      let trimmed :=
        if chars.reverse.take 4 = ['t', 'i', 'g', '.'] then (chars.reverse.drop 4).reverse
        else chars
      let parts := splitOnSlash trimmed
      if parts.length < 2 then .error "invalid repository URL format"
      else .ok (String.mk (parts.getLast?.getD []))

deriving instance DecidableEq for Except

/-- Oracle for the external effects performed by one DeploymentService.Deploy
attempt (src/unnamed/part_005): for each fallible call, `none`/`.ok` means
it succeeded and `some e`/`.error e` that it failed with error message `e`.
`parseRepoURL` is `url.Parse(req.RepoURL)` (error, or the URL's path).
`testSSH` carries the ssh test's combined output on success.
`setupGitHubEvents` / `additionalTasksEvents` are the broadcast traces of
the two opaque sub-calls that receive the broadcaster. -/
structure DeployWorld where
  parseRepoURL : Except String String
  mkdirWork : Option String
  mkdirTerraform : Option String
  mkdirAnsible : Option String
  generateSSHKeys : Option String
  generateTerraformConfig : Option String
  initTerraform : Option String
  applyTerraform : Option String
  terraformOutputPublicIP : Except String String
  statPrivateKey : Option String
  statPublicKey : Option String
  createAnsibleFiles : Option String
  testSSH : Except String String
  runAnsiblePlaybook : Option String
  setupGitHubActions : Option String
  setupGitHubEvents : List LogMessage
  runAdditionalTasks : Option String
  additionalTasksEvents : List LogMessage
  removeAllWorkDir : Option String
deriving DecidableEq

/-- workDir = filepath.Join("deployments", username, repoName, timestamp)
(src/unnamed/part_005 lines 62-64); `ts` is the formatted timestamp. -/
def workDirFor (req : DeploymentRequest) (repoName ts : String) : String :=
  joinPath (joinPath (joinPath "deployments" req.username) repoName) ts

/-- The deferred cleanup's broadcasts (src/unnamed/part_005 lines 73-80):
announce cleanup, then warn if os.RemoveAll failed else report success. -/
def cleanupEvents (w : DeployWorld) (workDir : String) (now : Nat) : List LogMessage :=
  mkMsg "info" "Cleaning up deployment directory..." "cleanup" now ::
  (match w.removeAllWorkDir with
   | some e => [mkMsg "warn" ("Failed to cleanup directory " ++ workDir ++ ": " ++ e) "cleanup" now]
   | none => [mkMsg "info" "Cleanup completed successfully" "cleanup" now])

/-- DeploymentService.Deploy after the workdir exists and the cleanup defer
is registered (src/unnamed/part_005 lines 82-205): the sequential stage
chain with early returns on hard failures, warn-and-continue on the soft
steps (ssh connectivity test, GitHub Actions setup, additional tasks — the
latter two only when auto_deploy is set). Returns the error or the public
IP, and the broadcast trace of this part. -/
def deployAfterWorkdir (w : DeployWorld) (req : DeploymentRequest)
    (workDir : String) (now : Nat) : Except String String × List LogMessage :=
  let terraformDir := joinPath workDir "terraform"
  let azurePrivateKeyPath := joinPath terraformDir "azure_vm_key"
  let azurePublicKeyPath := joinPath terraformDir "azure_vm_key.pub"
  let e1 := [mkMsg "info" "Creating terraform directory..." "setup" now]
  match w.mkdirTerraform with
  | some e => (.error ("failed to create terraform directory: " ++ e),
      e1 ++ [mkMsg "error" ("Failed to create terraform directory: " ++ e) "setup" now])
  | none =>
  let e2 := e1 ++ [mkMsg "info" "Creating ansible directory..." "setup" now]
  match w.mkdirAnsible with
  | some e => (.error ("failed to create ansible directory: " ++ e),
      e2 ++ [mkMsg "error" ("Failed to create ansible directory: " ++ e) "setup" now])
  | none =>
  let e3 := e2 ++ [mkMsg "info" "Generating SSH keys..." "ssh" now]
  match w.generateSSHKeys with
  | some e => (.error ("failed to generate SSH keys: " ++ e),
      e3 ++ [mkMsg "error" ("Failed to generate SSH keys: " ++ e) "ssh" now])
  | none =>
  let e4 := e3 ++ [mkMsg "success" "SSH keys generated successfully" "ssh" now,
                   mkMsg "info" "Generating Terraform configuration..." "terraform" now]
  match w.generateTerraformConfig with
  | some e => (.error ("failed to generate terraform config: " ++ e),
      e4 ++ [mkMsg "error" ("Failed to generate terraform config: " ++ e) "terraform" now])
  | none =>
  let e5 := e4 ++ [mkMsg "success" "Terraform configuration generated" "terraform" now,
                   mkMsg "info" "Initializing Terraform..." "terraform" now]
  match w.initTerraform with
  | some e => (.error ("failed to initialize terraform: " ++ e),
      e5 ++ [mkMsg "error" ("Failed to initialize terraform: " ++ e) "terraform" now])
  | none =>
  let e6 := e5 ++ [mkMsg "success" "Terraform initialized successfully" "terraform" now,
                   mkMsg "info" "Applying Terraform (this may take a few minutes)..." "terraform" now]
  match w.applyTerraform with
  | some e => (.error ("failed to apply terraform: " ++ e),
      e6 ++ [mkMsg "error" ("Failed to apply terraform: " ++ e) "terraform" now])
  | none =>
  let e7 := e6 ++ [mkMsg "success" "Terraform applied successfully" "terraform" now,
                   mkMsg "info" "Retrieving public IP address..." "network" now]
  match w.terraformOutputPublicIP with
  | .error e => (.error ("failed to get public IP: " ++ e),
      e7 ++ [mkMsg "error" ("Failed to get public IP: " ++ e) "network" now])
  | .ok rawIP =>
  let publicIP := rawIP.trim
  if publicIP = "" then
    (.error "public IP is empty", e7 ++ [mkMsg "error" "Public IP is empty" "network" now])
  else
  let e8 := e7 ++ [mkMsg "success" ("Retrieved public IP: " ++ publicIP) "network" now,
                   mkMsg "info" "Verifying SSH keys..." "ssh" now]
  match w.statPrivateKey with
  | some e => (.error ("Private key not found at " ++ azurePrivateKeyPath ++ ": " ++ e),
      e8 ++ [mkMsg "error" ("Private key not found at " ++ azurePrivateKeyPath ++ ": " ++ e) "ssh" now])
  | none =>
  match w.statPublicKey with
  | some e => (.error ("Public key not found at " ++ azurePublicKeyPath ++ ": " ++ e),
      e8 ++ [mkMsg "error" ("Public key not found at " ++ azurePublicKeyPath ++ ": " ++ e) "ssh" now])
  | none =>
  let e9 := e8 ++ [mkMsg "success" "SSH keys verified successfully" "ssh" now,
                   mkMsg "info" "Creating Ansible configuration files..." "ansible" now]
  match w.createAnsibleFiles with
  | some e => (.error ("failed to create ansible files: " ++ e),
      e9 ++ [mkMsg "error" ("Failed to create ansible files: " ++ e) "ansible" now])
  | none =>
  let e10 := e9 ++ [mkMsg "success" "Ansible files created successfully" "ansible" now,
                    mkMsg "info" "Waiting for VM to be ready (60 seconds)..." "vm" now,
                    mkMsg "info" "Testing SSH connectivity..." "ssh" now]
  let e11 := e10 ++
    (match w.testSSH with
     | .error e => [mkMsg "warn" ("SSH connectivity test failed, but continuing: " ++ e) "ssh" now]
     | .ok out => [mkMsg "info" ("SSH test output: " ++ out) "ssh" now,
                   mkMsg "success" "SSH connectivity test passed" "ssh" now])
  let e12 := e11 ++ [mkMsg "info" "Running Ansible playbook (this may take several minutes)..." "ansible" now]
  match w.runAnsiblePlaybook with
  | some e => (.error ("failed to run ansible playbook: " ++ e),
      e12 ++ [mkMsg "error" ("Failed to run ansible playbook: " ++ e) "ansible" now])
  | none =>
  let e13 := e12 ++ [mkMsg "success" "Ansible playbook execution completed successfully" "ansible" now]
  let e14 := e13 ++
    (if req.autoDeploy then
      mkMsg "info" "Setting up GitHub Actions auto-deployment..." "github" now ::
      w.setupGitHubEvents ++
      (match w.setupGitHubActions with
       | some e => [mkMsg "warn" ("Failed to setup GitHub Actions: " ++ e) "github" now]
       | none => [mkMsg "success" "GitHub Actions setup completed" "github" now]) ++
      (mkMsg "info" "Running additional GitHub Actions setup tasks..." "github" now ::
       w.additionalTasksEvents ++
       (match w.runAdditionalTasks with
        | some e => [mkMsg "warn" ("Failed to run GitHub Actions setup tasks: " ++ e) "github" now]
        | none => [mkMsg "success" "Additional GitHub Actions tasks completed" "github" now]))
     else [])
  (.ok publicIP, e14 ++ [mkMsg "success" "Deployment completed successfully!" "completed" now])

/-- DeploymentService.Deploy (src/unnamed/part_005 lines 51-205): extract
the repo name, create the per-attempt workspace, register the cleanup
defer, run the stage chain, and on every exit path past the workspace
creation append the deferred cleanup's broadcasts. `ts` is the formatted
timestamp used in the workspace path. -/
def Deploy (w : DeployWorld) (req : DeploymentRequest) (ts : String) (now : Nat) :
    Except String String × List LogMessage :=
  let ev0 := [mkMsg "info" "Extracting repository name..." "setup" now]
  match extractRepoName w.parseRepoURL with
  | .error e => (.error ("failed to extract repo name: " ++ e),
      ev0 ++ [mkMsg "error" ("Failed to extract repo name: " ++ e) "setup" now])
  | .ok repoName =>
  let workDir := workDirFor req repoName ts
  let ev1 := ev0 ++ [mkMsg "info" ("Repository name: " ++ repoName) "setup" now,
                     mkMsg "info" ("Creating deployment directory: " ++ workDir) "setup" now]
  match w.mkdirWork with
  | some e => (.error ("failed to create work directory: " ++ e),
      ev1 ++ [mkMsg "error" ("Failed to create work directory: " ++ e) "setup" now])
  | none =>
  let r := deployAfterWorkdir w req workDir now
  (r.1, ev1 ++ r.2 ++ cleanupEvents w workDir now)

/-- The deployment goroutine of handleDeployment (src/api/main.go lines
186-229): broadcast the initial event, set status running, run Deploy
replaying its broadcast trace through BroadcastLog, then on error broadcast
the failure event and set status failed (on success the success event and
completed), broadcast the terminal sentinel, and after the grace sleep
retire the registry entry. Returns the final manager state and the full
broadcast trace; `none` = a broadcast panicked (closed channel in the
registry — unreachable). -/
def runDeployment (w : DeployWorld) (req : DeploymentRequest)
    (deploymentID ts : String) (now : Nat) (st : DM) :
    Option (DM × List LogMessage) :=
  let startMsg := mkMsg "info" "Starting deployment..." "initialization" now
  match BroadcastLog deploymentID startMsg st with
  | none => none
  | some st1 =>
  let st2 := SetDeploymentStatus deploymentID "running" none now st1
  let r := Deploy w req ts now
  match r.2.foldlM (fun s m => BroadcastLog deploymentID m s) st2 with
  | none => none
  | some st3 =>
  match r.1 with
  | .error e =>
      let failMsg := mkMsg "error" ("Deployment failed: " ++ e) "error" now
      match BroadcastLog deploymentID failMsg st3 with
      | none => none
      | some st4 =>
      let st5 := SetDeploymentStatus deploymentID "failed" (some e) now st4
      match BroadcastLog deploymentID (sentinelMsg now) st5 with
      | none => none
      | some st6 =>
          some (Retire deploymentID st6, startMsg :: r.2 ++ [failMsg, sentinelMsg now])
  | .ok ip =>
      let okMsg := mkMsg "success" ("Deployment completed successfully! Public IP: " ++ ip) "completed" now
      match BroadcastLog deploymentID okMsg st3 with
      | none => none
      | some st4 =>
      let st5 := SetDeploymentStatus deploymentID "completed" none now st4
      match BroadcastLog deploymentID (sentinelMsg now) st5 with
      | none => none
      | some st6 =>
          some (Retire deploymentID st6, startMsg :: r.2 ++ [okMsg, sentinelMsg now])

/-- Example oracle: every external call succeeds except `terraform apply`,
which fails with "disk full". -/
def exWorld : DeployWorld :=
  { parseRepoURL := .ok "/user/repo"
    mkdirWork := none, mkdirTerraform := none, mkdirAnsible := none
    generateSSHKeys := none, generateTerraformConfig := none
    initTerraform := none, applyTerraform := some "disk full"
    terraformOutputPublicIP := .ok "1.2.3.4"
    statPrivateKey := none, statPublicKey := none
    createAnsibleFiles := none, testSSH := .ok "ok"
    runAnsiblePlaybook := none
    setupGitHubActions := none, setupGitHubEvents := []
    runAdditionalTasks := none, additionalTasksEvents := []
    removeAllWorkDir := none }

/-- Example deployment request with all required fields present. -/
def exReq : DeploymentRequest :=
  ⟨"https://github.com/user/repo", "tok", "alice", [], [], false, false⟩

/-- Example manager state: one registered deployment, no subscribers. -/
def exSt : DM := CreateDeployment "dep1" 0 ⟨[], [], []⟩

/-- Example state for the broadcast witness: deployment "d" has two
subscribers, channel 0 full (capacity 1) and channel 1 with room. -/
def exBcastSt : DM :=
  ⟨[(0, ⟨[mkMsg "info" "old" "s" 0], 1, false⟩), (1, ⟨[], 2, false⟩)],
   [("d", [0, 1])],
   [("d", ⟨"d", "running", 0, none, none⟩)]⟩

/-! ### Association-list lemmas -/

theorem lookup_setKey_self [DecidableEq κ] (l : List (κ × α)) (k : κ) (v : α) :
    lookupKey (setKey l k v) k = some v := by
  induction l with
  | nil => simp [setKey, lookupKey]
  | cons p t ih =>
      obtain ⟨a, b⟩ := p
      by_cases h : a = k
      · simp [setKey, h, lookupKey]
      · simp [setKey, h, lookupKey, ih]

theorem lookup_setKey_ne [DecidableEq κ] (l : List (κ × α)) (k k' : κ) (v : α)
    (hne : k' ≠ k) : lookupKey (setKey l k v) k' = lookupKey l k' := by
  have hne2 : ¬ k = k' := fun hh => hne hh.symm
  induction l with
  | nil => simp [setKey, lookupKey, hne2]
  | cons p t ih =>
      obtain ⟨a, b⟩ := p
      by_cases h : a = k
      · subst h
        simp [setKey, lookupKey, hne2]
      · simp [setKey, h, lookupKey, ih]

theorem lookup_updKey_self [DecidableEq κ] (l : List (κ × α)) (k : κ) (v : α) :
    lookupKey (updKey l k v) k = (lookupKey l k).map (fun _ => v) := by
  induction l with
  | nil => simp [updKey, lookupKey]
  | cons p t ih =>
      obtain ⟨a, b⟩ := p
      by_cases h : a = k
      · simp [updKey, h, lookupKey, ih]
      · simp [updKey, h, lookupKey, ih]

theorem lookup_updKey_ne [DecidableEq κ] (l : List (κ × α)) (k k' : κ) (v : α)
    (hne : k' ≠ k) : lookupKey (updKey l k v) k' = lookupKey l k' := by
  induction l with
  | nil => simp [updKey]
  | cons p t ih =>
      obtain ⟨a, b⟩ := p
      by_cases h : a = k
      · subst h
        have hne2 : ¬ a = k' := fun hh => hne hh.symm
        simp [updKey, lookupKey, hne2, ih]
      · simp [updKey, h, lookupKey, ih]

theorem lookup_eraseKey_self [DecidableEq κ] (l : List (κ × α)) (k : κ) :
    lookupKey (eraseKey l k) k = none := by
  induction l with
  | nil => simp [eraseKey, lookupKey]
  | cons p t ih =>
      obtain ⟨a, b⟩ := p
      by_cases h : a = k
      · simp [eraseKey, h, ih]
      · simp [eraseKey, h, lookupKey, ih]

theorem lookup_eraseKey_ne [DecidableEq κ] (l : List (κ × α)) (k k' : κ)
    (hne : k' ≠ k) : lookupKey (eraseKey l k) k' = lookupKey l k' := by
  induction l with
  | nil => simp [eraseKey]
  | cons p t ih =>
      obtain ⟨a, b⟩ := p
      by_cases h : a = k
      · subst h
        have hne2 : ¬ a = k' := fun hh => hne hh.symm
        simp [eraseKey, lookupKey, hne2, ih]
      · simp [eraseKey, h, lookupKey, ih]

/-! ### Frame lemmas for the manager's operations -/

theorem setStatus_clients (id s : String) (e : Option String) (n : Nat) (st : DM) :
    (SetDeploymentStatus id s e n st).clients = st.clients := by
  unfold SetDeploymentStatus
  cases lookupKey st.deployments id <;> rfl

theorem setStatus_chans (id s : String) (e : Option String) (n : Nat) (st : DM) :
    (SetDeploymentStatus id s e n st).chans = st.chans := by
  unfold SetDeploymentStatus
  cases lookupKey st.deployments id <;> rfl

theorem addClient_chans (id : String) (cid : Nat) (st : DM) :
    (AddClient id cid st).chans = st.chans := by
  unfold AddClient
  cases lookupKey st.clients id <;> rfl

theorem get_setStatus (id s : String) (e : Option String) (n : Nat) (st : DM) :
    GetDeploymentStatus id (SetDeploymentStatus id s e n st) =
      (GetDeploymentStatus id st).map (fun d =>
        { d with status := s, error := e,
                 endTime := if s = "completed" ∨ s = "failed" then some n else d.endTime }) := by
  unfold SetDeploymentStatus GetDeploymentStatus
  cases hd : lookupKey st.deployments id with
  | none => simp [hd]
  | some d => simp [hd, lookup_updKey_self]

theorem broadcast_empty (st : DM) (id : String) (m : LogMessage)
    (h : clientsOf st id = []) : BroadcastLog id m st = some st := by
  unfold BroadcastLog
  cases hc : lookupKey st.clients id with
  | none => rfl
  | some cls =>
      have hnil : cls = [] := by simpa [clientsOf, hc] using h
      subst hnil
      simp

theorem fold_broadcast_empty (id : String) (ms : List LogMessage) (st : DM)
    (h : clientsOf st id = []) :
    ms.foldlM (fun s m => BroadcastLog id m s) st = some st := by
  induction ms with
  | nil => rfl
  | cons x xs ih => simp [List.foldlM_cons, broadcast_empty st id x h, ih]

theorem clientsOf_setStatus (id2 id s : String) (e : Option String) (n : Nat) (st : DM) :
    clientsOf (SetDeploymentStatus id s e n st) id2 = clientsOf st id2 := by
  unfold clientsOf
  rw [setStatus_clients]

theorem getLast_cons_append_pair (l : List α) (x a b : α) :
    (x :: (l ++ [a, b])).getLast? = some b := by
  induction l generalizing x with
  | nil => rfl
  | cons h t ih => exact ih h

/-- A single RemoveClient call on a subscriber whose channel is still open
succeeds: the subscriber leaves the registry entry (if any), its channel
becomes closed, and the status store is untouched. -/
theorem removeClient_of_open (st : DM) (id : String) (cid : Nat) (c : Chan)
    (hc : lookupKey st.chans cid = some c) (ho : c.closed = false) :
    ∃ st2, RemoveClient id cid st = some st2 ∧
      cid ∉ clientsOf st2 id ∧
      lookupKey st2.chans cid = some { c with closed := true } ∧
      st2.deployments = st.deployments := by
  unfold RemoveClient closeChan
  cases hcl : lookupKey st.clients id with
  | none =>
      simp only [hcl]
      rw [hc]
      simp only [ho]
      refine ⟨_, rfl, ?_, ?_, rfl⟩
      · simp [clientsOf, hcl]
      · rw [lookup_updKey_self, hc]
        rfl
  | some l =>
      simp only [hcl]
      rw [show lookupKey ({ st with clients := updKey st.clients id (l.filter (fun x => x != cid)) } : DM).chans cid = some c from hc]
      simp only [ho]
      refine ⟨_, rfl, ?_, ?_, rfl⟩
      · simp [clientsOf, lookup_updKey_self, hcl]
      · rw [lookup_updKey_self, hc]
        rfl

/-- Effect of the broadcast loop on a duplicate-free list of registered,
open channels: each channel with room gets the message appended, each full
channel is untouched, channels outside the list are untouched, and the
loop itself never panics. -/
theorem fold_trySend_spec (msg : LogMessage) :
    ∀ (cls : List Nat) (st : DM),
      (∀ cid ∈ cls, ∃ c, lookupKey st.chans cid = some c ∧ c.closed = false) →
      cls.Nodup →
      ∃ st2, cls.foldlM (fun s c => trySend c msg s) st = some st2 ∧
        st2.clients = st.clients ∧
        st2.deployments = st.deployments ∧
        (∀ cid, cid ∈ cls → ∀ c, lookupKey st.chans cid = some c →
            lookupKey st2.chans cid =
              some (if c.buf.length < c.cap then { c with buf := c.buf ++ [msg] } else c)) ∧
        (∀ cid, cid ∉ cls → lookupKey st2.chans cid = lookupKey st.chans cid) := by
  intro cls
  induction cls with
  | nil =>
      intro st _ _
      exact ⟨st, rfl, rfl, rfl, by simp, fun _ _ => rfl⟩
  | cons c0 tl ih =>
      intro st hopen hnodup
      obtain ⟨c, hc, ho⟩ := hopen c0 (by simp)
      have hn0 : c0 ∉ tl := (List.nodup_cons.mp hnodup).1
      have hntl : tl.Nodup := (List.nodup_cons.mp hnodup).2
      by_cases hroom : c.buf.length < c.cap
      · -- room: the head's channel gets the message
        have hsend : trySend c0 msg st =
            some { st with chans := updKey st.chans c0 ({ c with buf := c.buf ++ [msg] }) } := by
          unfold trySend
          rw [hc]
          simp [ho, hroom]
        set st1 : DM := { st with chans := updKey st.chans c0 ({ c with buf := c.buf ++ [msg] }) } with hst1
        have hopen1 : ∀ cid ∈ tl, ∃ c2, lookupKey st1.chans cid = some c2 ∧ c2.closed = false := by
          intro cid hmem
          obtain ⟨c2, hc2, ho2⟩ := hopen cid (by simp [hmem])
          have hne : cid ≠ c0 := fun hh => hn0 (hh ▸ hmem)
          exact ⟨c2, by rw [hst1]; simpa [lookup_updKey_ne _ _ _ _ hne] using hc2, ho2⟩
        obtain ⟨st2, hfold, hcl2, hdep2, hin2, hout2⟩ := ih st1 hopen1 hntl
        refine ⟨st2, ?_, ?_, ?_, ?_, ?_⟩
        · simpa [List.foldlM_cons, hsend] using hfold
        · rw [hcl2, hst1]
        · rw [hdep2, hst1]
        · intro cid hmem c3 hc3
          rcases List.mem_cons.mp hmem with heq | htl
          · subst heq
            have hc3c : c3 = c := by
              have := hc3.symm.trans hc
              exact Option.some.inj this
            subst hc3c
            rw [hout2 cid hn0, hst1]
            simp only []
            rw [lookup_updKey_self, hc]
            simp [hroom]
          · have hne : cid ≠ c0 := fun hh => hn0 (hh ▸ htl)
            have hc3' : lookupKey st1.chans cid = some c3 := by
              rw [hst1]
              simpa [lookup_updKey_ne _ _ _ _ hne] using hc3
            exact hin2 cid htl c3 hc3'
        · intro cid hout
          have hne : cid ≠ c0 := fun hh => hout (by simp [hh])
          have htl : cid ∉ tl := fun hh => hout (by simp [hh])
          rw [hout2 cid htl, hst1]
          simpa using lookup_updKey_ne st.chans c0 cid _ hne
      · -- full: the head's channel is skipped (message dropped for it)
        have hsend : trySend c0 msg st = some st := by
          unfold trySend
          rw [hc]
          simp [ho, hroom]
        obtain ⟨st2, hfold, hcl2, hdep2, hin2, hout2⟩ := ih st (fun cid hmem => hopen cid (by simp [hmem])) hntl
        refine ⟨st2, ?_, hcl2, hdep2, ?_, ?_⟩
        · simpa [List.foldlM_cons, hsend] using hfold
        · intro cid hmem c3 hc3
          rcases List.mem_cons.mp hmem with heq | htl
          · subst heq
            have hc3c : c3 = c := Option.some.inj (hc3.symm.trans hc)
            subst hc3c
            rw [hout2 cid hn0, hc]
            simp [hroom]
          · exact hin2 cid htl c3 hc3
        · intro cid hout
          exact hout2 cid (fun hh => hout (by simp [hh]))

/-! ### Claim theorems -/

/-- C10: SetDeploymentStatus with a deployment id that has no record in the
store is a silent no-op — the whole manager state is unchanged and the call
never errors or panics. -/
theorem setStatus_unknown_id_noop (st : DM) (id s : String) (e : Option String)
    (now : Nat) (h : GetDeploymentStatus id st = none) :
    SetDeploymentStatus id s e now st = st := by
  unfold GetDeploymentStatus at h
  unfold SetDeploymentStatus
  simp [h]

/-- Witness for C10 at a concrete store without the id. -/
theorem setStatus_unknown_id_noop_witness :
    GetDeploymentStatus "missing" (⟨[], [], [("d", ⟨"d", "running", 0, none, none⟩)]⟩ : DM) = none ∧
    SetDeploymentStatus "missing" "failed" (some "boom") 5
        (⟨[], [], [("d", ⟨"d", "running", 0, none, none⟩)]⟩ : DM) =
      (⟨[], [], [("d", ⟨"d", "running", 0, none, none⟩)]⟩ : DM) :=
  ⟨by decide,
   setStatus_unknown_id_noop _ "missing" "failed" (some "boom") 5 (by decide)⟩

/-- C8: for an id with no record, the log-stream attach answers 404 with no
events and no registration, and the status query answers 404 with no
snapshot fields. -/
theorem unknown_id_not_found (st : DM) (id : String) (cid : Nat) (now : Nat)
    (h : GetDeploymentStatus id st = none) :
    handleLogStream id cid now st = some ⟨true, [], false, st⟩ ∧
    handleDeploymentStatus id st = ⟨404, none, none, none, none, none, none⟩ := by
  constructor
  · unfold handleLogStream
    simp [h]
  · unfold handleDeploymentStatus
    simp [h]

/-- Witness for C8 at an empty store. -/
theorem unknown_id_not_found_witness :
    GetDeploymentStatus "nope" (⟨[], [], []⟩ : DM) = none ∧
    handleLogStream "nope" 0 3 (⟨[], [], []⟩ : DM) = some ⟨true, [], false, ⟨[], [], []⟩⟩ ∧
    handleDeploymentStatus "nope" (⟨[], [], []⟩ : DM) = ⟨404, none, none, none, none, none, none⟩ :=
  ⟨by decide,
   (unknown_id_not_found ⟨[], [], []⟩ "nope" 0 3 (by decide)).1,
   (unknown_id_not_found ⟨[], [], []⟩ "nope" 0 3 (by decide)).2⟩

/-- C7: a malformed body or a request missing a required field is rejected
with a 400 synchronously: the store is left unchanged (no record created)
and the pipeline goroutine is not started. -/
theorem handleDeployment_rejects_invalid (req : DeploymentRequest)
    (deploymentID : String) (now : Nat) (st : DM)
    (h : req.username = "" ∨ req.repoURL = "" ∨ req.githubToken = "") :
    handleDeployment (some req) deploymentID now st = ⟨400, st, false⟩ ∧
    handleDeployment none deploymentID now st = ⟨400, st, false⟩ := by
  have hv : ∃ e, validateRequest req = some e := by
    unfold validateRequest
    rcases h with h | h | h
    · exact ⟨"username is required", by simp [h]⟩
    · by_cases hu : req.username = ""
      · exact ⟨"username is required", by simp [hu]⟩
      · exact ⟨"repo_url is required", by simp [hu, h]⟩
    · by_cases hu : req.username = ""
      · exact ⟨"username is required", by simp [hu]⟩
      · by_cases hr : req.repoURL = ""
        · exact ⟨"repo_url is required", by simp [hu, hr]⟩
        · exact ⟨"github_token is required", by simp [hu, hr, h]⟩
  obtain ⟨e, he⟩ := hv
  constructor
  · unfold handleDeployment
    simp [he]
  · rfl

/-- Witness for C7: a request with an empty repo_url is rejected and the
store stays empty. -/
theorem handleDeployment_rejects_invalid_witness :
    ((⟨"", "tok", "alice", [], [], false, false⟩ : DeploymentRequest).username = "" ∨
     (⟨"", "tok", "alice", [], [], false, false⟩ : DeploymentRequest).repoURL = "" ∨
     (⟨"", "tok", "alice", [], [], false, false⟩ : DeploymentRequest).githubToken = "") ∧
    handleDeployment (some ⟨"", "tok", "alice", [], [], false, false⟩) "dep1" 4 (⟨[], [], []⟩ : DM) =
      ⟨400, ⟨[], [], []⟩, false⟩ ∧
    handleDeployment none "dep1" 4 (⟨[], [], []⟩ : DM) = ⟨400, ⟨[], [], []⟩, false⟩ :=
  ⟨Or.inr (Or.inl rfl),
   (handleDeployment_rejects_invalid ⟨"", "tok", "alice", [], [], false, false⟩ "dep1" 4
      ⟨[], [], []⟩ (Or.inr (Or.inl rfl))).1,
   (handleDeployment_rejects_invalid ⟨"", "tok", "alice", [], [], false, false⟩ "dep1" 4
      ⟨[], [], []⟩ (Or.inr (Or.inl rfl))).2⟩

/-- C6 counterexample: CreateDeployment with an id that already has a record
does not fail with AlreadyExists — it silently replaces the existing record
(the start time changes from 0 to 7 and status resets to running). -/
theorem createDeployment_replaces_existing_record :
    GetDeploymentStatus "d" (CreateDeployment "d" 7 (CreateDeployment "d" 0 ⟨[], [], []⟩)) =
      some ⟨"d", "running", 7, none, none⟩ ∧
    GetDeploymentStatus "d" (CreateDeployment "d" 7 (CreateDeployment "d" 0 ⟨[], [], []⟩)) ≠
      some ⟨"d", "running", 0, none, none⟩ := by
  decide

/-- C6 amended: CreateDeployment never fails; it unconditionally writes a
fresh RUNNING record for the id (replacing any existing one), touches no
other component of the state, and leaves every other id's record alone.
Uniqueness of ids rests solely on the generation scheme. -/
theorem createDeployment_unconditional_insert (st : DM) (id : String) (now : Nat) :
    GetDeploymentStatus id (CreateDeployment id now st) = some ⟨id, "running", now, none, none⟩ ∧
    (CreateDeployment id now st).clients = st.clients ∧
    (CreateDeployment id now st).chans = st.chans ∧
    (∀ id2, id2 ≠ id →
      GetDeploymentStatus id2 (CreateDeployment id now st) = GetDeploymentStatus id2 st) := by
  refine ⟨?_, rfl, rfl, ?_⟩
  · unfold GetDeploymentStatus CreateDeployment
    exact lookup_setKey_self ..
  · intro id2 h2
    unfold GetDeploymentStatus CreateDeployment
    exact lookup_setKey_ne _ _ _ _ h2

/-- Witness for the amended C6 on a store that already holds a terminal
record for the id and a record for another id. -/
theorem createDeployment_unconditional_insert_witness :
    GetDeploymentStatus "d"
        (CreateDeployment "d" 3 ⟨[], [], [("d", ⟨"d", "completed", 0, some 1, none⟩), ("x", ⟨"x", "running", 2, none, none⟩)]⟩) =
      some ⟨"d", "running", 3, none, none⟩ ∧
    GetDeploymentStatus "x"
        (CreateDeployment "d" 3 ⟨[], [], [("d", ⟨"d", "completed", 0, some 1, none⟩), ("x", ⟨"x", "running", 2, none, none⟩)]⟩) =
      GetDeploymentStatus "x" ⟨[], [], [("d", ⟨"d", "completed", 0, some 1, none⟩), ("x", ⟨"x", "running", 2, none, none⟩)]⟩ :=
  ⟨(createDeployment_unconditional_insert _ "d" 3).1,
   (createDeployment_unconditional_insert _ "d" 3).2.2.2 "x" (by decide)⟩

/-- C5 counterexample: the retire block removes the registry entry but does
NOT close the still-attached subscriber's queue — after Retire the channel
heap is unchanged and channel 0 is still open (closed = false). -/
theorem retire_does_not_close_queues :
    (Retire "d" ⟨[(0, ⟨[], 100, false⟩)], [("d", [0])], [("d", ⟨"d", "completed", 0, some 1, none⟩)]⟩).chans =
      [(0, ⟨[], 100, false⟩)] ∧
    lookupKey (Retire "d" ⟨[(0, ⟨[], 100, false⟩)], [("d", [0])], [("d", ⟨"d", "completed", 0, some 1, none⟩)]⟩).clients "d" = none := by
  decide

/-- C5 amended: the retire step only deletes the deployment's registry
entry; subscriber queues are not closed or released by it (each session
closes its own queue later via its deferred RemoveClient), and the channel
heap, the status store, and every other deployment's registry entry are
untouched. -/
theorem retire_removes_registry_entry_only (st : DM) (id : String) :
    lookupKey (Retire id st).clients id = none ∧
    (Retire id st).chans = st.chans ∧
    (Retire id st).deployments = st.deployments ∧
    (∀ id2, id2 ≠ id → lookupKey (Retire id st).clients id2 = lookupKey st.clients id2) := by
  exact ⟨lookup_eraseKey_self .., rfl, rfl, fun id2 h2 => lookup_eraseKey_ne _ _ _ h2⟩

/-- Witness for the amended C5 at a state with one attached subscriber for
"d" and one for "x". -/
theorem retire_removes_registry_entry_only_witness :
    lookupKey (Retire "d" ⟨[(0, ⟨[], 100, false⟩)], [("d", [0]), ("x", [1])], []⟩).clients "d" = none ∧
    (Retire "d" ⟨[(0, ⟨[], 100, false⟩)], [("d", [0]), ("x", [1])], []⟩).chans =
      [(0, ⟨[], 100, false⟩)] ∧
    lookupKey (Retire "d" ⟨[(0, ⟨[], 100, false⟩)], [("d", [0]), ("x", [1])], []⟩).clients "x" =
      lookupKey ([("d", [0]), ("x", [1])] : List (String × List Nat)) "x" :=
  ⟨(retire_removes_registry_entry_only _ "d").1,
   (retire_removes_registry_entry_only _ "d").2.1,
   (retire_removes_registry_entry_only _ "d").2.2.2 "x" (by decide)⟩

/-- C2 counterexample: SetDeploymentStatus has no terminal guard. After the
record reached COMPLETED (end_time = 1), a later "running" write reverts
the status to RUNNING, and a later "failed" write overwrites the terminal
status and re-sets end_time from 1 to 3. -/
theorem setStatus_overwrites_terminal_record :
    GetDeploymentStatus "d" (SetDeploymentStatus "d" "running" none 2
        (SetDeploymentStatus "d" "completed" none 1 (CreateDeployment "d" 0 ⟨[], [], []⟩))) =
      some ⟨"d", "running", 0, some 1, none⟩ ∧
    GetDeploymentStatus "d" (SetDeploymentStatus "d" "failed" (some "late") 3
        (SetDeploymentStatus "d" "completed" none 1 (CreateDeployment "d" 0 ⟨[], [], []⟩))) =
      some ⟨"d", "failed", 0, some 3, some "late"⟩ := by
  decide

/-- C2 amended: SetDeploymentStatus is an unconditional overwrite: whenever
the record exists it replaces status and error with the given values and
(re)sets end_time to now exactly when the written status is terminal —
there is no already-terminal no-op guard, so monotonicity and the set-once
end_time hold only under the runner's call discipline (one RUNNING write,
then exactly one terminal write). -/
theorem setStatus_unconditional_overwrite (st : DM) (id s : String)
    (e : Option String) (now : Nat) (d : DeploymentStatus)
    (h : GetDeploymentStatus id st = some d) :
    GetDeploymentStatus id (SetDeploymentStatus id s e now st) =
      some { d with status := s, error := e,
                    endTime := if s = "completed" ∨ s = "failed" then some now else d.endTime } := by
  rw [get_setStatus, h]
  rfl

/-- Witness for the amended C2: overwriting a COMPLETED record with FAILED
replaces the terminal status and re-sets end_time. -/
theorem setStatus_unconditional_overwrite_witness :
    GetDeploymentStatus "d" (⟨[], [], [("d", ⟨"d", "completed", 0, some 1, none⟩)]⟩ : DM) =
      some ⟨"d", "completed", 0, some 1, none⟩ ∧
    GetDeploymentStatus "d" (SetDeploymentStatus "d" "failed" (some "late") 3
        (⟨[], [], [("d", ⟨"d", "completed", 0, some 1, none⟩)]⟩ : DM)) =
      some ⟨"d", "failed", 0, some 3, some "late"⟩ := by
  refine ⟨by decide, ?_⟩
  have h := setStatus_unconditional_overwrite
    ⟨[], [], [("d", ⟨"d", "completed", 0, some 1, none⟩)]⟩ "d" "failed" (some "late") 3
    ⟨"d", "completed", 0, some 1, none⟩ (by decide)
  simpa using h

/-- C1 counterexample: RemoveClient is not idempotent — the first call for
subscriber 0 succeeds, but a second call for the same subscriber panics
(close of an already-closed channel), contradicting "calling it a second
time ... never errors or panics". -/
theorem removeClient_second_call_panics :
    (RemoveClient "d" 0 ⟨[(0, ⟨[], 100, false⟩)], [("d", [0])], []⟩).isSome = true ∧
    (RemoveClient "d" 0 ⟨[(0, ⟨[], 100, false⟩)], [("d", [0])], []⟩).bind
        (RemoveClient "d" 0) = none := by
  decide

/-- C1 amended: a single RemoveClient call per subscriber — including one
made after the registry entry was already retired — never errors or panics:
it removes the subscriber from the registry entry (if any), closes the
subscriber's channel, and leaves the status store alone. Only a second call
for the same subscriber panics, on re-closing the closed channel. -/
theorem removeClient_single_call_safe (st : DM) (id : String) (cid : Nat)
    (c : Chan) (hc : lookupKey st.chans cid = some c) (ho : c.closed = false) :
    (∃ st2, RemoveClient id cid st = some st2 ∧
        cid ∉ clientsOf st2 id ∧
        lookupKey st2.chans cid = some { c with closed := true } ∧
        st2.deployments = st.deployments) ∧
    (∃ st3, RemoveClient id cid (Retire id st) = some st3) := by
  refine ⟨removeClient_of_open st id cid c hc ho, ?_⟩
  obtain ⟨st3, h3, -, -, -⟩ :=
    removeClient_of_open (Retire id st) id cid c (by simpa [Retire] using hc) ho
  exact ⟨st3, h3⟩

/-- Witness for the amended C1 at a state with one attached subscriber. -/
theorem removeClient_single_call_safe_witness :
    lookupKey (⟨[(0, ⟨[], 100, false⟩)], [("d", [0])], []⟩ : DM).chans 0 =
      some ⟨[], 100, false⟩ ∧
    ((∃ st2, RemoveClient "d" 0 (⟨[(0, ⟨[], 100, false⟩)], [("d", [0])], []⟩ : DM) = some st2 ∧
        0 ∉ clientsOf st2 "d" ∧
        lookupKey st2.chans 0 = some ⟨[], 100, true⟩ ∧
        st2.deployments = (⟨[(0, ⟨[], 100, false⟩)], [("d", [0])], []⟩ : DM).deployments) ∧
     (∃ st3, RemoveClient "d" 0 (Retire "d" (⟨[(0, ⟨[], 100, false⟩)], [("d", [0])], []⟩ : DM)) = some st3)) :=
  ⟨by decide,
   removeClient_single_call_safe ⟨[(0, ⟨[], 100, false⟩)], [("d", [0])], []⟩ "d" 0
     ⟨[], 100, false⟩ (by decide) rfl⟩

/-- C3 counterexample: a subscriber attaching while the deployment is
already COMPLETED receives two events — the synthetic connection notice
and then the sentinel — not exactly one. -/
theorem lateAttach_delivers_two_events :
    (handleLogStream "d" 0 2 ⟨[], [], [("d", ⟨"d", "completed", 0, some 1, none⟩)]⟩).map
        (fun r => r.events) =
      some [connectedMsg "d" "completed" 2, sentinelMsg 2] ∧
    ¬((handleLogStream "d" 0 2 ⟨[], [], [("d", ⟨"d", "completed", 0, some 1, none⟩)]⟩).map
        (fun r => r.events.length) = some 1) := by
  decide

/-- C3 amended: a subscriber attaching after the deployment is terminal
receives exactly two events — the synthetic connection notice, then the
completion sentinel — and nothing else (no pipeline events), after which
the handler returns without entering the streaming loop. -/
theorem lateAttach_connected_then_sentinel (st : DM) (id : String) (cid : Nat)
    (now : Nat) (d : DeploymentStatus) (hget : GetDeploymentStatus id st = some d)
    (hterm : d.status = "completed" ∨ d.status = "failed") :
    ∃ st2, handleLogStream id cid now st =
      some ⟨false, [connectedMsg id d.status now, sentinelMsg now], false, st2⟩ := by
  unfold handleLogStream
  rw [hget]
  dsimp only
  have hfresh : lookupKey (AddClient id cid (newClientChan cid st)).chans cid =
      some ⟨[], 100, false⟩ := by
    rw [addClient_chans]
    unfold newClientChan
    exact lookup_setKey_self ..
  obtain ⟨st2, h2, -, -, -⟩ :=
    removeClient_of_open (AddClient id cid (newClientChan cid st)) id cid ⟨[], 100, false⟩ hfresh rfl
  refine ⟨st2, ?_⟩
  rw [if_pos hterm, h2]
  rfl

/-- Witness for the amended C3 at a concrete terminal deployment. -/
theorem lateAttach_connected_then_sentinel_witness :
    GetDeploymentStatus "d" (⟨[], [], [("d", ⟨"d", "completed", 0, some 1, none⟩)]⟩ : DM) =
      some ⟨"d", "completed", 0, some 1, none⟩ ∧
    (∃ st2, handleLogStream "d" 0 2 (⟨[], [], [("d", ⟨"d", "completed", 0, some 1, none⟩)]⟩ : DM) =
      some ⟨false, [connectedMsg "d" "completed" 2, sentinelMsg 2], false, st2⟩) :=
  ⟨by decide,
   lateAttach_connected_then_sentinel ⟨[], [], [("d", ⟨"d", "completed", 0, some 1, none⟩)]⟩
     "d" 0 2 ⟨"d", "completed", 0, some 1, none⟩ (by decide) (Or.inl rfl)⟩

/-- C4: BroadcastLog is a non-blocking best-effort fan-out over the
currently registered subscribers of the id: it never panics, every
registered subscriber whose queue has room gets the event appended, a
subscriber with a full queue keeps its queue unchanged (the event is
dropped for it only) while the others still receive it, unregistered
channels and all other state are untouched, and with zero subscribers the
event is simply discarded (state unchanged). The hypotheses are the Go map
invariants: registered channels exist, are open, and are distinct. -/
theorem broadcastLog_nonblocking_fanout (st : DM) (id : String) (msg : LogMessage)
    (hopen : ∀ cid ∈ clientsOf st id, ∃ c, lookupKey st.chans cid = some c ∧ c.closed = false)
    (hnodup : (clientsOf st id).Nodup) :
    ∃ st2, BroadcastLog id msg st = some st2 ∧
      st2.clients = st.clients ∧
      st2.deployments = st.deployments ∧
      (∀ cid, cid ∈ clientsOf st id → ∀ c, lookupKey st.chans cid = some c →
          lookupKey st2.chans cid =
            some (if c.buf.length < c.cap then { c with buf := c.buf ++ [msg] } else c)) ∧
      (∀ cid, cid ∉ clientsOf st id → lookupKey st2.chans cid = lookupKey st.chans cid) ∧
      (clientsOf st id = [] → st2 = st) := by
  unfold BroadcastLog
  cases hcl : lookupKey st.clients id with
  | none =>
      refine ⟨st, rfl, rfl, rfl, ?_, fun _ _ => rfl, fun _ => rfl⟩
      intro cid hmem
      simp [clientsOf, hcl] at hmem
  | some cls =>
      have hcls : clientsOf st id = cls := by simp [clientsOf, hcl]
      dsimp only
      by_cases hlen : cls.length > 0
      · rw [if_pos hlen]
        obtain ⟨st2, hfold, hclients, hdeps, hin, hout⟩ :=
          fold_trySend_spec msg cls st (hcls ▸ hopen) (hcls ▸ hnodup)
        refine ⟨st2, hfold, hclients, hdeps, ?_, ?_, ?_⟩
        · intro cid hmem c hc
          exact hin cid (hcls ▸ hmem) c hc
        · intro cid hmem
          exact hout cid (hcls ▸ hmem)
        · intro hnil
          rw [hcls] at hnil
          subst hnil
          simp at hlen
      · have hnil : cls = [] := List.length_eq_zero.mp (Nat.le_zero.mp (Nat.not_lt.mp hlen))
        subst hnil
        rw [if_neg hlen]
        exact ⟨st, rfl, rfl, rfl, fun cid hmem => by simp [hcls] at hmem,
               fun _ _ => rfl, fun _ => rfl⟩

/-- Witness for C4 at `exBcastSt`: subscriber 0's queue is full (capacity
1), subscriber 1 has room; the broadcast succeeds. -/
theorem broadcastLog_nonblocking_fanout_witness :
    (clientsOf exBcastSt "d").Nodup ∧
    (∃ st2, BroadcastLog "d" (mkMsg "info" "new" "s" 1) exBcastSt = some st2 ∧
      st2.clients = exBcastSt.clients ∧
      st2.deployments = exBcastSt.deployments ∧
      (∀ cid, cid ∈ clientsOf exBcastSt "d" → ∀ c, lookupKey exBcastSt.chans cid = some c →
          lookupKey st2.chans cid =
            some (if c.buf.length < c.cap
                  then { c with buf := c.buf ++ [mkMsg "info" "new" "s" 1] } else c)) ∧
      (∀ cid, cid ∉ clientsOf exBcastSt "d" →
          lookupKey st2.chans cid = lookupKey exBcastSt.chans cid) ∧
      (clientsOf exBcastSt "d" = [] → st2 = exBcastSt)) :=
  ⟨by decide,
   broadcastLog_nonblocking_fanout exBcastSt "d" (mkMsg "info" "new" "s" 1)
     (by
       intro cid hmem
       have : cid = 0 ∨ cid = 1 := by
         simpa [exBcastSt, clientsOf, lookupKey] using hmem
       rcases this with h | h <;> subst h
       · exact ⟨⟨[mkMsg "info" "old" "s" 0], 1, false⟩, by decide, rfl⟩
       · exact ⟨⟨[], 2, false⟩, by decide, rfl⟩)
     (by decide)⟩

/-- C9: once the per-attempt workspace has been created, the deferred
cleanup's events are a segment of the pipeline's broadcast trace on every
exit path (success, soft-failure continuation, or hard-failure abort, i.e.
for every oracle), and a hard stage failure never crashes the runner: the
goroutine completes normally, the record becomes terminal FAILED carrying
the error with end_time set, the trace contains the final error event and
ends with the sentinel, and the cleanup events are still in the trace. -/
theorem deploy_cleanup_unconditional_and_failure_contained
    (w : DeployWorld) (req : DeploymentRequest) (ts : String) (now : Nat)
    (repoName : String) (hrepo : extractRepoName w.parseRepoURL = .ok repoName)
    (hmk : w.mkdirWork = none) :
    (∃ pre, (Deploy w req ts now).2 =
        pre ++ cleanupEvents w (workDirFor req repoName ts) now) ∧
    (∀ (e deploymentID : String) (st : DM) (d : DeploymentStatus),
        (Deploy w req ts now).1 = .error e →
        clientsOf st deploymentID = [] →
        GetDeploymentStatus deploymentID st = some d →
        ∃ st2 trace, runDeployment w req deploymentID ts now st = some (st2, trace) ∧
          GetDeploymentStatus deploymentID st2 =
            some ⟨d.id, "failed", d.startTime, some now, some e⟩ ∧
          mkMsg "error" ("Deployment failed: " ++ e) "error" now ∈ trace ∧
          trace.getLast? = some (sentinelMsg now) ∧
          (∃ pre2 post, trace =
              pre2 ++ cleanupEvents w (workDirFor req repoName ts) now ++ post)) := by
  have hdeploy : Deploy w req ts now =
      ((deployAfterWorkdir w req (workDirFor req repoName ts) now).1,
       ([mkMsg "info" "Extracting repository name..." "setup" now] ++
        [mkMsg "info" ("Repository name: " ++ repoName) "setup" now,
         mkMsg "info" ("Creating deployment directory: " ++ workDirFor req repoName ts) "setup" now]) ++
       (deployAfterWorkdir w req (workDirFor req repoName ts) now).2 ++
       cleanupEvents w (workDirFor req repoName ts) now) := by
    unfold Deploy
    rw [hrepo, hmk]
  constructor
  · exact ⟨_, by rw [hdeploy]⟩
  · intro e deploymentID st d herr hcls hget
    have hcls1 : clientsOf (SetDeploymentStatus deploymentID "running" none now st)
        deploymentID = [] := by
      rw [clientsOf_setStatus]
      exact hcls
    have hcls2 : clientsOf (SetDeploymentStatus deploymentID "failed" (some e) now
        (SetDeploymentStatus deploymentID "running" none now st)) deploymentID = [] := by
      rw [clientsOf_setStatus, clientsOf_setStatus]
      exact hcls
    unfold runDeployment
    dsimp only
    rw [broadcast_empty _ _ _ hcls]
    dsimp only
    rw [fold_broadcast_empty _ _ _ hcls1]
    dsimp only
    rw [herr]
    dsimp only
    rw [broadcast_empty _ _ _ hcls1]
    dsimp only
    rw [broadcast_empty _ _ _ hcls2]
    dsimp only
    refine ⟨_, _, rfl, ?_, ?_, ?_, ?_⟩
    · show GetDeploymentStatus deploymentID
        (SetDeploymentStatus deploymentID "failed" (some e) now
          (SetDeploymentStatus deploymentID "running" none now st)) = _
      rw [get_setStatus, get_setStatus, hget]
      simp
    · simp
    · exact getLast_cons_append_pair _ _ _ _
    · refine ⟨mkMsg "info" "Starting deployment..." "initialization" now ::
        ([mkMsg "info" "Extracting repository name..." "setup" now] ++
         [mkMsg "info" ("Repository name: " ++ repoName) "setup" now,
          mkMsg "info" ("Creating deployment directory: " ++ workDirFor req repoName ts) "setup" now]) ++
        (deployAfterWorkdir w req (workDirFor req repoName ts) now).2,
        [mkMsg "error" ("Deployment failed: " ++ e) "error" now, sentinelMsg now], ?_⟩
      rw [hdeploy]
      simp [List.append_assoc]

/-- Witness for C9: with `exWorld` (terraform apply fails with "disk full"
after the workspace was created) and one registered deployment with no
subscribers, the pipeline trace ends in cleanup-then-error-then-sentinel
and the record finishes FAILED. -/
theorem deploy_cleanup_witness :
    extractRepoName exWorld.parseRepoURL = .ok "repo" ∧
    (∃ pre, (Deploy exWorld exReq "t" 0).2 =
        pre ++ cleanupEvents exWorld (workDirFor exReq "repo" "t") 0) ∧
    (∃ st2 trace, runDeployment exWorld exReq "dep1" "t" 0 exSt = some (st2, trace) ∧
        GetDeploymentStatus "dep1" st2 =
          some ⟨"dep1", "failed", 0, some 0, some "failed to apply terraform: disk full"⟩ ∧
        mkMsg "error" ("Deployment failed: " ++ "failed to apply terraform: disk full") "error" 0 ∈ trace ∧
        trace.getLast? = some (sentinelMsg 0) ∧
        (∃ pre2 post, trace =
            pre2 ++ cleanupEvents exWorld (workDirFor exReq "repo" "t") 0 ++ post)) := by
  have h := deploy_cleanup_unconditional_and_failure_contained exWorld exReq "t" 0 "repo"
    (by decide) rfl
  exact ⟨by decide, h.1,
    h.2 "failed to apply terraform: disk full" "dep1" exSt ⟨"dep1", "running", 0, none, none⟩
      (by decide) rfl (by decide)⟩

end VPC
